import Mathlib

/-!
Verification of the apphealth status-monitoring backend.

This file is a shallow embedding, in Lean 4, of the core logic of the
repository: the status normalizer (`app/utils/normalizer.py`), the JSON and
RSS parsers (`app/parsers/json_parser.py`, `app/parsers/rss_parser.py`), the
parser dispatcher (`app/parsers/__init__.py`), the module-filtered status
aggregation of the polling scheduler (`app/polling/scheduler.py`), the email
notification decision (`app/notifications.py`), and the SQL generation
session (`app/services/sql_query_generator.py`).

Conventions used throughout:
- Python strings are Lean `String`; all relevant regular expressions in the
  source are either literal substrings, word-boundary word searches, or small
  fixed shapes, and are embedded as explicit character scans.
- Timestamps are modelled as `Int` seconds (or minutes where the source works
  in minutes); a datetime subtraction becomes an `Int` subtraction.
- External effects (the SQLite executor, the LLM completion capability, the
  HTTP fetch) are parameters of the embedded functions: the oracle maps an
  input to the observed outcome, exactly the information flow of the source.
- Fallible operations are `Option`/`Except` valued.
-/

namespace AppHealth

/-- Canonical status enum, from `app/models.py` (`StatusType`). -/
inductive StatusType where
  | operational
  | degraded
  | incident
  | maintenance
  | recently_resolved
  | unknown
deriving DecidableEq, Repr

/-- Python `str.lower()` (character-wise; the source only lowercases ASCII
status text and SQL). -/
def strLower (s : String) : String := String.mk (s.toList.map Char.toLower)

/-- Python `str.upper()`. -/
def strUpper (s : String) : String := String.mk (s.toList.map Char.toUpper)

/-- Python `str.strip()`: remove whitespace from both ends. -/
def pyStrip (s : String) : String :=
  String.mk
    (((s.toList.dropWhile Char.isWhitespace).reverse.dropWhile Char.isWhitespace).reverse)

/-- Check that `needle` matches `hay` position-wise from the start. -/
def matchHere : List Char → List Char → Bool
  | [], _ => true
  | _ :: _, [] => false
  | a :: as, b :: bs => a == b && matchHere as bs

/-- Check that `needle` occurs somewhere inside `hay`. -/
def occursIn (needle : List Char) : List Char → Bool
  | [] => matchHere needle []
  | c :: cs => matchHere needle (c :: cs) || occursIn needle cs

/-- Substring containment: `needle in hay` of Python.  Used to embed
`re.search(pat, s)` for the pattern tables of the source, whose patterns are
all literal strings (no regex metacharacters). -/
def strContains (needle hay : String) : Bool :=
  occursIn needle.toList hay.toList

/-- Ordered pattern table `STATUS_PATTERNS` of `app/utils/normalizer.py`,
in the declared (insertion) order of the Python dict. -/
def STATUS_PATTERNS : List (StatusType × List String) :=
  [ (StatusType.operational,
      ["operational", "all systems operational", "no issues", "normal",
       "ok", "up", "available", "healthy", "none"]),
    (StatusType.degraded,
      ["degraded", "partial", "minor", "investigating", "identified",
       "monitoring", "performance issues"]),
    (StatusType.incident,
      ["major outage", "down", "outage", "incident", "critical",
       "service disruption", "major"]),
    (StatusType.maintenance,
      ["maintenance", "scheduled", "planned work"]) ]

/-- First status in `table` one of whose patterns occurs in `text`. -/
def firstMatch (text : String) : List (StatusType × List String) → StatusType
  | [] => StatusType.unknown
  | (st, pats) :: rest =>
      if pats.any (fun p => strContains p text) then st else firstMatch text rest

/-- Embedding of `normalize_status` (`app/utils/normalizer.py`): empty text is
UNKNOWN; otherwise the lowercased, stripped text is matched against the
pattern table in declared priority order; first matching bucket wins; no match
is UNKNOWN.  Every pattern of the table is a literal string, so `re.search`
is substring containment. -/
def normalize_status (status_text : String) : StatusType :=
  if status_text = "" then StatusType.unknown
  else firstMatch (pyStrip (strLower status_text)) STATUS_PATTERNS

/-- JSON values, the result of Python `json.loads`. -/
inductive JValue where
  | str (s : String)
  | num (n : Int)
  | bool (b : Bool)
  | null
  | arr (xs : List JValue)
  | obj (fields : List (String × JValue))
deriving Repr

/-- Dictionary lookup `d.get(key)` on a JSON object (first binding wins). -/
def jget (v : JValue) (key : String) : Option JValue :=
  match v with
  | JValue.obj fields => (fields.find? (fun kv => kv.1 == key)).map (·.2)
  | _ => none

/-- String lookup with default: `d.get(key, dflt)` where the value is used as
a string. -/
def jgetStrD (v : JValue) (key : String) (dflt : String) : String :=
  match jget v key with
  | some (JValue.str s) => s
  | _ => dflt

/-- Array lookup with default: `d.get(key, [])`. -/
def jgetArrD (v : JValue) (key : String) : List JValue :=
  match jget v key with
  | some (JValue.arr xs) => xs
  | _ => []

/-- Embedding of `normalize_component_statuses` (`app/utils/normalizer.py`):
empty list is UNKNOWN; otherwise each component's `status` string (default
empty) is normalized, and the worst bucket present wins in the fixed order
incident > degraded > maintenance > operational > unknown. -/
def normalize_component_statuses (components : List JValue) : StatusType :=
  if components.isEmpty then StatusType.unknown
  else
    let statuses := components.map (fun comp => normalize_status (jgetStrD comp "status" ""))
    if StatusType.incident ∈ statuses then StatusType.incident
    else if StatusType.degraded ∈ statuses then StatusType.degraded
    else if StatusType.maintenance ∈ statuses then StatusType.maintenance
    else if StatusType.operational ∈ statuses then StatusType.operational
    else StatusType.unknown

/-- Embedding of `extract_summary` (`app/utils/normalizer.py`).  Python
`str()` of a non-string JSON value is only reached on malformed feeds and is
not exercised by any claim; dictionary accesses follow the source exactly. -/
def extract_summary (data : JValue) (source_type : String) : String :=
  if source_type = "rss" then
    match jgetArrD data "incidents" with
    | inc :: _ => jgetStrD inc "title" "No summary available"
    | [] => "All systems operational"
  else if source_type = "json" then
    let fromStatus :=
      match jget data "status" with
      | some st =>
          let desc := jgetStrD st "description" ""
          if desc ≠ "" then some desc else none
      | none => none
    match fromStatus with
    | some desc => desc
    | none =>
        match jgetArrD data "incidents" with
        | inc :: _ => jgetStrD inc "name" "Active incident"
        | [] => "All systems operational"
  else if source_type = "html" then
    jgetStrD data "summary" "Status information retrieved from page"
  else
    "No summary available"

/-- Reading-shaped output of one parser: the dict returned by
`JSONParser.parse` / `RSSParser.parse` before the dispatcher attaches a
`source_type`.  `raw_data` keeps the structured payload; `last_changed_at`
keeps the raw timestamp value found in the payload (`_parse_timestamp` only
re-encodes an ISO string into a datetime and is not otherwise inspected by
the logic under verification). -/
structure ParseOut where
  status : StatusType
  summary : String
  raw_data : JValue
  last_changed_at : Option String
deriving Repr

/-- Python `str()` of a decoded JSON value, as applied by the generic branch
of `JSONParser.parse` to a scalar status field.  Containers are abbreviated
(their Python `repr` text never matches any status pattern relevant to the
claims; no claim exercises a container-valued status field). -/
def pyStr : JValue → String
  | JValue.str s => s
  | JValue.num n => toString n
  | JValue.bool true => "True"
  | JValue.bool false => "False"
  | JValue.null => "None"
  | JValue.arr _ => "[...]"
  | JValue.obj _ => "[...]"

/-- Embedding of `JSONParser._map_indicator_to_status`
(`app/parsers/json_parser.py`). -/
def map_indicator_to_status (indicator : String) : StatusType :=
  if indicator = "none" then StatusType.operational
  else if indicator = "minor" then StatusType.degraded
  else if indicator = "major" then StatusType.incident
  else if indicator = "critical" then StatusType.incident
  else if indicator = "maintenance" then StatusType.maintenance
  else StatusType.unknown

/-- Embedding of `JSONParser.parse` (`app/parsers/json_parser.py`) on an
already-decoded JSON value (the result of `json.loads`; a decode failure
raises before this logic runs and is handled by the dispatcher, see
`parse_url`).  Statuspage branch when a top-level `status` key exists,
generic key-scanning branch otherwise. -/
def json_parse (data : JValue) : ParseOut :=
  match jget data "status" with
  | some status_data =>
      let indicator := strLower (jgetStrD status_data "indicator" "")
      let status0 := map_indicator_to_status indicator
      let components := jgetArrD data "components"
      let status :=
        if components.isEmpty then status0
        else
          let component_status := normalize_component_statuses components
          if component_status ≠ StatusType.operational then component_status else status0
      let last_changed :=
        match jget status_data "updated_at" with
        | some (JValue.str ts) => some ts
        | _ => none
      { status := status
        summary := extract_summary data "json"
        raw_data := data
        last_changed_at := last_changed }
  | none =>
      let keys := ["status", "state", "health", "overall_status"]
      let status :=
        match keys.find? (fun k => (jget data k).isSome) with
        | some k =>
            match jget data k with
            | some v => normalize_status (pyStr v)
            | none => StatusType.unknown
        | none => StatusType.unknown
      { status := status
        summary := "Status information retrieved"
        raw_data := data
        last_changed_at := none }

/-- Match `kw` position-wise at the front of `s`, returning the remainder. -/
def dropMatch : List Char → List Char → Option (List Char)
  | [], s => some s
  | _ :: _, [] => none
  | a :: as, b :: bs => if a == b then dropMatch as bs else none

/-- Scan to the first closing angle bracket, returning the remainder after
it.  Fails when no closing bracket exists. -/
def skipToGt : List Char → Option (List Char)
  | [] => none
  | c :: rest => if c == Char.ofNat 62 then some rest else skipToGt rest

/-- Given the characters following an opening angle bracket, consume one HTML
tag body matching the regex fragment of `strip_html`: one or more characters
other than the closing bracket, then the closing bracket.  Returns the
remainder, or fails when the position does not start a tag. -/
def findTagClose : List Char → Option (List Char)
  | [] => none
  | c :: rest => if c == Char.ofNat 62 then none else skipToGt rest

/-- Tag-removal pass of `strip_html`, the substitution
`re.sub(r"<[^>]+>", "", text)`, as a fuel recursion (structural, so that
concrete inputs evaluate); each step consumes at least one character, so a
fuel of the input length is never exhausted. -/
def stripTagsFuel : Nat → List Char → List Char
  | 0, s => s
  | _, [] => []
  | Nat.succ fuel, c :: rest =>
      if c == Char.ofNat 60 then
        match findTagClose rest with
        | some rest2 => stripTagsFuel fuel rest2
        | none => c :: stripTagsFuel fuel rest
      else
        c :: stripTagsFuel fuel rest

def stripTags (s : List Char) : List Char := stripTagsFuel s.length s

/-- Python `str.replace(pat, rep)` on all non-overlapping occurrences, left
to right, as a fuel recursion; every pattern the source replaces is
non-empty, and empty patterns are the identity here. -/
def strReplaceFuel (pat rep : List Char) : Nat → List Char → List Char
  | 0, s => s
  | _, [] => []
  | Nat.succ fuel, c :: cs =>
      match dropMatch pat (c :: cs) with
      | some rest => rep ++ strReplaceFuel pat rep fuel rest
      | none => c :: strReplaceFuel pat rep fuel cs

def strReplace (s pat rep : String) : String :=
  if pat = "" then s
  else String.mk (strReplaceFuel pat.toList rep.toList s.toList.length s.toList)

/-- Embedding of `strip_html` (`app/parsers/rss_parser.py`): remove HTML
tags, decode the six listed HTML entities in source order, strip whitespace. -/
def strip_html (text : String) : String :=
  if text = "" then ""
  else
    let clean := String.mk (stripTags text.toList)
    let clean := strReplace clean "&lt;" "<"
    let clean := strReplace clean "&gt;" ">"
    let clean := strReplace clean "&amp;" "&"
    let clean := strReplace clean "&quot;" (String.singleton (Char.ofNat 34))
    let clean := strReplace clean "&apos;" (String.singleton (Char.ofNat 39))
    let clean := strReplace clean "&nbsp;" " "
    pyStrip clean

/-- One feed entry as surfaced by feedparser to `RSSParser.parse`: the
`.get(key, "")` defaults of the source are already applied to the text
fields, and `published` is the entry timestamp extracted by
`_parse_entry_date`, in seconds (`none` when no date field parses). -/
structure Entry where
  title : String
  summary : String
  published : Option Int
  link : String
deriving Repr

/-- Incident record built for `raw_data["incidents"]`. -/
structure Incident where
  title : String
  summary : String
  published : Option Int
  link : String
deriving Repr, DecidableEq

/-- An incident paired with its processing timestamp (the
`{"incident": ..., "datetime": ...}` dicts of the source). -/
structure TimedIncident where
  incident : Incident
  datetime : Option Int
deriving Repr, DecidableEq

/-- Accumulator of the entry loop of `RSSParser.parse`. -/
structure RSSState where
  incidents : List Incident
  active : List TimedIncident
  recent_resolved : List TimedIncident
  latest : Option TimedIncident
deriving Repr

def resolved_keywords : List String :=
  ["resolved", "completed", "fixed", "corrected", "restored", "mitigated"]

def informational_keywords : List String :=
  ["scheduled", "update:", "announcement", "no operational impact"]

/-- Body of the entry loop of `RSSParser.parse` (`app/parsers/rss_parser.py`,
lines 53-100): skip future entries, record the incident, classify it as
recently-resolved or active when it is within 24 hours, skip informational
entries from classification, and remember the first surviving entry as the
latest incident.  `now` is `datetime.utcnow()` in seconds. -/
def processEntry (now : Int) (st : RSSState) (e : Entry) : RSSState :=
  let skipFuture :=
    match e.published with
    | some p => decide (now - p < 0)
    | none => false
  if skipFuture then st
  else
    let inc : Incident :=
      { title := e.title, summary := e.summary, published := e.published, link := e.link }
    let st := { st with incidents := st.incidents ++ [inc] }
    let is_recent :=
      match e.published with
      | some p => decide (0 ≤ now - p) && decide (now - p < 24 * 3600)
      | none => false
    let title_lower := strLower inc.title
    let summary_lower := strLower (strip_html inc.summary)
    let is_resolved :=
      resolved_keywords.any (fun w => strContains w title_lower || strContains w summary_lower)
    let is_informational :=
      informational_keywords.any (fun w => strContains w title_lower || strContains w summary_lower)
    if is_informational then st
    else
      let ti : TimedIncident := { incident := inc, datetime := e.published }
      let st :=
        if is_recent then
          if is_resolved then { st with recent_resolved := st.recent_resolved ++ [ti] }
          else { st with active := st.active ++ [ti] }
        else st
      if st.latest.isNone then { st with latest := some ti } else st

/-- Severity rank of the canonical statuses per section 3 of the spec:
OPERATIONAL < RECENTLY_RESOLVED < MAINTENANCE < DEGRADED < INCIDENT.  UNKNOWN
is excluded from severity aggregation and given the bottom rank. -/
def severityRank : StatusType → Nat
  | StatusType.operational => 0
  | StatusType.recently_resolved => 1
  | StatusType.maintenance => 2
  | StatusType.degraded => 3
  | StatusType.incident => 4
  | StatusType.unknown => 0

/-- Modelled from the spec: the worse of two statuses by the severity order
of section 3.  Stated only to compare the spec-asserted aggregation of the
JSON parser against what the source computes. -/
def spec_worse (a b : StatusType) : StatusType :=
  if severityRank a < severityRank b then b else a

/-- Result of `RSSParser.parse` (feed-level metadata passed through to
`raw_data` verbatim from the feed header is omitted; it is not consulted by
any logic under verification). -/
structure RSSResult where
  status : StatusType
  summary : String
  incidents : List Incident
  active_incidents : List TimedIncident
  recent_resolved : List TimedIncident
  has_recent_incident : Bool
  last_changed_at : Option Int
deriving Repr

def incident_summary_keywords : List String :=
  ["outage", "down", "major outage", "critical", "unavailable"]

def incident_title_keywords : List String :=
  ["outage", "down", "major", "critical"]

def degraded_summary_keywords : List String :=
  ["investigating", "identified", "monitoring"]

def maintenance_title_keywords : List String :=
  ["maintenance", "scheduled"]

/-- Embedding of `RSSParser.parse` (`app/parsers/rss_parser.py`, lines
48-172) on the entry list surfaced by feedparser: the first 20 entries are
categorized by `processEntry`, then the status, summary and change timestamp
are decided exactly as in the source. -/
def rss_parse (now : Int) (entries : List Entry) : RSSResult :=
  let st := (entries.take 20).foldl (processEntry now) ⟨[], [], [], none⟩
  let has_recent := decide (st.active.length > 0) || decide (st.recent_resolved.length > 0)
  let statusLatest :=
    match st.active with
    | a :: _ =>
        let title := strLower a.incident.title
        let summary_text := strLower (strip_html a.incident.summary)
        let status :=
          if incident_summary_keywords.any (fun w => strContains w summary_text) then
            StatusType.incident
          else if incident_title_keywords.any (fun w => strContains w title) then
            StatusType.incident
          else if degraded_summary_keywords.any (fun w => strContains w summary_text) then
            StatusType.degraded
          else if maintenance_title_keywords.any (fun w => strContains w title) then
            StatusType.maintenance
          else
            StatusType.degraded
        (status, some a)
    | [] =>
        match st.recent_resolved with
        | r :: _ => (StatusType.recently_resolved, some r)
        | [] => (StatusType.operational, st.latest)
  let status := statusLatest.1
  let latest := statusLatest.2
  let summary :=
    if status = StatusType.operational then "All systems operational"
    else if !st.active.isEmpty then
      match latest with
      | some a => a.incident.title
      | none => "Active incident"
    else if !st.recent_resolved.isEmpty then
      match st.recent_resolved with
      | [r] => "Resolved: " ++ r.incident.title
      | _ =>
          let titles := (st.recent_resolved.take 3).map (fun i => i.incident.title)
          let base := "Resolved incidents: " ++ String.intercalate ", " (titles.take 2)
          if st.recent_resolved.length > 2 then
            base ++ " (+" ++ toString (st.recent_resolved.length - 2) ++ " more)"
          else base
    else
      match latest with
      | some a => a.incident.title
      | none => "No recent incidents"
  let last_changed :=
    match latest with
    | some a => if has_recent then a.datetime else none
    | none => none
  { status := status
    summary := summary
    incidents := st.incidents
    active_incidents := st.active
    recent_resolved := st.recent_resolved
    has_recent_incident := has_recent
    last_changed_at := last_changed }

/-- Reading-shaped dictionary returned by `ParserFactory.parse_url`
(`app/parsers/__init__.py`): a parser result with the attached
`source_type`, plus the `error` key present only on the failure path. -/
structure ParsedReading where
  status : StatusType
  summary : String
  raw_data : Option JValue
  last_changed_at : Option String
  source_type : String
  error : Option String
deriving Repr

/-- One parser as seen by the dispatcher: its content probe, its parse
function (raising is the `Except.error` case, carrying `str(e)`), and the
source-type tag `_get_source_type` assigns to it. -/
structure ParserSpec where
  canParse : String → String → Bool
  parse : String → String → Except String ParseOut
  sourceType : String

/-- Error reading built by the `except` clause of `ParserFactory.parse_url`. -/
def errorReading (e : String) : ParsedReading :=
  { status := StatusType.unknown
    summary := "Error: " ++ e
    raw_data := none
    last_changed_at := none
    source_type := "error"
    error := some e }

/-- Parser selection of `ParserFactory.parse_url`: the declared parser when
an explicit type is given (`_get_parser_by_type`), else the first parser
whose `can_parse` probe accepts the content (`_auto_select_parser`). -/
def selectParser (parsers : List ParserSpec) (declared : Option ParserSpec)
    (content_type content : String) : Option ParserSpec :=
  match declared with
  | some p => some p
  | none => parsers.find? (fun p => p.canParse content_type content)

/-- Embedding of `ParserFactory.parse_url` (`app/parsers/__init__.py`, lines
24-78).  `fetched` is the outcome of the transport fetch (content and
content-type, or the exception text); `declared` is the parser selected by
`_get_parser_by_type` for an explicit parser type, `none` meaning AUTO mode,
in which the dispatcher probes `parsers` in order with `can_parse`.  Every
exception on the way - fetch failure, no suitable parser, or a parse error -
is caught by the blanket `except` and becomes `errorReading`. -/
def parse_url (parsers : List ParserSpec) (declared : Option ParserSpec)
    (fetched : Except String (String × String)) (url : String) : ParsedReading :=
  match fetched with
  | Except.error e => errorReading e
  | Except.ok (content, content_type) =>
      match selectParser parsers declared content_type content with
      | none => errorReading ("No suitable parser found for " ++ url)
      | some p =>
          match p.parse content url with
          | Except.error e => errorReading e
          | Except.ok r =>
              { status := r.status
                summary := r.summary
                raw_data := some r.raw_data
                last_changed_at := r.last_changed_at
                source_type := p.sourceType
                error := none }

/-- Components as handled by the module filter of `PollingScheduler.poll_site`
(`app/polling/scheduler.py`): dictionaries with a `name` and a `status`
string (the parsers attach both keys to every component they extract). -/
structure SchedComponent where
  name : String
  status : String
deriving Repr, DecidableEq

/-- One step of the worst-status loop of `PollingScheduler.poll_site` (lines
148-156): an `incident` component forces INCIDENT; `degraded` upgrades
anything below INCIDENT; `maintenance` upgrades only OPERATIONAL. -/
def worstStep (worst : StatusType) (comp_status_str : String) : StatusType :=
  if comp_status_str = "incident" then StatusType.incident
  else if comp_status_str = "degraded" ∧ worst ≠ StatusType.incident then StatusType.degraded
  else if comp_status_str = "maintenance" ∧ worst = StatusType.operational then
    StatusType.maintenance
  else worst

/-- Embedding of the module-filtered status aggregation of
`PollingScheduler.poll_site` (`app/polling/scheduler.py`, lines 124-166),
restricted to the stored status (the claim under verification): when the
enabled-modules list and the extracted component list are both non-empty,
components are filtered by case-insensitive name membership; a non-empty
filtered subset replaces the parser status with the worst filtered status,
otherwise the raw status is kept. -/
def module_filtered_status (module_names_raw : List String)
    (components : List SchedComponent) (raw_status : StatusType) : StatusType :=
  if module_names_raw.isEmpty || components.isEmpty then raw_status
  else
    let module_names := module_names_raw.map strLower
    let filtered := components.filter (fun comp => module_names.contains (strLower comp.name))
    if filtered.isEmpty then raw_status
    else filtered.foldl (fun w comp => worstStep w comp.status) StatusType.operational

/-- Application settings row consulted by the notifier; only the cooldown is
read by `should_notify`. -/
structure AppSettings where
  notification_cooldown_minutes : Int
deriving Repr

/-- Site fields consulted by `EmailNotifier.should_notify`.  Timestamps are
minutes, matching `timedelta(minutes=...)` granularity of the source. -/
structure Site where
  last_notified_at : Option Int
  last_notified_status : Option StatusType
deriving Repr

/-- Cooldown actually applied: `app_settings.notification_cooldown_minutes if
app_settings else 60`. -/
def cooldownOf (app_settings : Option AppSettings) : Int :=
  match app_settings with
  | some s => s.notification_cooldown_minutes
  | none => 60

/-- Embedding of `EmailNotifier.should_notify` (`app/notifications.py`, lines
40-84).  `configured` is the outcome of `is_configured()`, `app_settings` the
settings row read inside the cooldown check, `now` is `datetime.utcnow()` in
minutes. -/
def should_notify (configured : Bool) (app_settings : Option AppSettings) (now : Int)
    (site : Site) (new_status old_status : StatusType) : Bool :=
  if !configured then false
  else if new_status = old_status then false
  else
    let cooldownBlocked :=
      match site.last_notified_at with
      | some t => decide (now < t + cooldownOf app_settings)
      | none => false
    if cooldownBlocked then false
    else if old_status = StatusType.operational
        ∧ ¬ (new_status ∈ ([StatusType.operational, StatusType.recently_resolved] : List StatusType)) then
      true
    else if old_status = StatusType.operational
        ∧ new_status = StatusType.recently_resolved then true
    else if old_status ∈ ([StatusType.degraded, StatusType.incident, StatusType.maintenance] : List StatusType)
        ∧ new_status ∈ ([StatusType.operational, StatusType.recently_resolved] : List StatusType) then
      match site.last_notified_status with
      | some s =>
          decide (¬ (s ∈ ([StatusType.operational, StatusType.recently_resolved] : List StatusType)))
      | none => false
    else false

/-- Word characters of the regex metacharacter for word boundaries. -/
def isWordChar (c : Char) : Bool := c.isAlphanum || c == '_'

/-- Boundary test against the character preceding or following a match
position (`none` at the ends of the string). -/
def boundaryOk (prev : Option Char) : Bool :=
  match prev with
  | none => true
  | some c => !(isWordChar c)

/-- Occurrence of the word `kw` at the front of `s` with word boundaries on
both sides, `prev` being the character just before this position. -/
def checkWordAt (kw s : List Char) (prev : Option Char) : Bool :=
  boundaryOk prev &&
    match dropMatch kw s with
    | some rest => boundaryOk rest.head?
    | none => false

def wordSearchAux (kw : List Char) : Option Char → List Char → Bool
  | prev, [] => checkWordAt kw [] prev
  | prev, c :: cs => checkWordAt kw (c :: cs) prev || wordSearchAux kw (some c) cs

/-- Embedding of `re.search(rf"\b{kw}\b", s)` for an alphanumeric keyword. -/
def reWordSearch (kw s : String) : Bool :=
  wordSearchAux kw.toList none s.toList

/-- Quote character class of the validator regexes. -/
def isQuoteChar (c : Char) : Bool := c == Char.ofNat 39 || c == Char.ofNat 34

/-- Match of the regex `datetime\s*\(\s*[quote]now[quote]` at the front of an
already-lowercased character list. -/
def datetimeNowAt (s : List Char) : Bool :=
  match dropMatch "datetime".toList s with
  | none => false
  | some r1 =>
      match r1.dropWhile Char.isWhitespace with
      | '(' :: r3 =>
          match r3.dropWhile Char.isWhitespace with
          | q :: r5 =>
              isQuoteChar q &&
                (match dropMatch "now".toList r5 with
                 | some (q2 :: _) => isQuoteChar q2
                 | _ => false)
          | [] => false
      | _ => false

def datetimeNowSearch : List Char → Bool
  | [] => datetimeNowAt []
  | c :: cs => datetimeNowAt (c :: cs) || datetimeNowSearch cs

/-- Match of the regex `-\s*(created_at|last_changed_at|timestamp)` at the
front of an already-lowercased character list. -/
def tsSubAt : List Char → Bool
  | '-' :: rest =>
      let r := rest.dropWhile Char.isWhitespace
      (dropMatch "created_at".toList r).isSome
        || (dropMatch "last_changed_at".toList r).isSome
        || (dropMatch "timestamp".toList r).isSome
  | _ => false

def tsSubSearch : List Char → Bool
  | [] => tsSubAt []
  | c :: cs => tsSubAt (c :: cs) || tsSubSearch cs

def statusLiteralWords : List String :=
  ["operational", "degraded", "incident", "maintenance", "recently_resolved"]

/-- Match of the regex `status\s*=\s*[quote](operational|...)[quote]` at the
front of an already-lowercased character list. -/
def statusEqAt (s : List Char) : Bool :=
  match dropMatch "status".toList s with
  | none => false
  | some r1 =>
      match r1.dropWhile Char.isWhitespace with
      | '=' :: r3 =>
          match r3.dropWhile Char.isWhitespace with
          | q :: r5 =>
              isQuoteChar q &&
                statusLiteralWords.any (fun w =>
                  match dropMatch w.toList r5 with
                  | some (q2 :: _) => isQuoteChar q2
                  | _ => false)
          | [] => false
      | _ => false

def statusEqSearch : List Char → Bool
  | [] => statusEqAt []
  | c :: cs => statusEqAt (c :: cs) || statusEqSearch cs

/-- Forbidden-token list `FORBIDDEN_TOKENS` of
`app/services/sql_query_generator.py`. -/
def FORBIDDEN_TOKENS : List String :=
  ["INTERVAL", "NOW()", "DATE_TRUNC", "TIMESTAMPDIFF",
   "CURRENT_TIMESTAMP AT TIME ZONE", "FROM_UNIXTIME",
   "EXTRACT(EPOCH FROM", "::timestamp", "CAST(ts AS TIMESTAMP)",
   "GREATEST(", "LEAST("]

def DDL_DML_KEYWORDS : List String :=
  ["CREATE", "DROP", "ALTER", "INSERT", "UPDATE", "DELETE", "TRUNCATE"]

def requires_lead_patterns : List String :=
  ["uptime", "duration", "time-weighted", "interval"]

def requires_partition_patterns : List String :=
  ["per site", "by site", "each service", "all services"]

def requires_window_clip_patterns : List String :=
  ["last 30 days", "last 7 days", "window", "time range"]

def requires_seed_state_patterns : List String :=
  ["window start", "seed", "initial state", "beginning"]

def status_task_keywords : List String :=
  ["uptime", "operational", "status", "degraded", "incident"]

/-- The `token.replace("(", "").replace(")", "")` of the violation tag. -/
def removeParens (s : String) : String :=
  String.mk (s.toList.filter (fun c => !(c == '(' || c == ')')))

/-- Embedding of `SQLQueryGenerator._validate_policy`
(`app/services/sql_query_generator.py`, lines 442-506): forbidden dialect
tokens, multi-statement, DDL/DML keywords, and the task-conditional
uptime/duration pattern checks, producing violation tags in source order. -/
def validate_policy (sql : String) (task : String) : List String :=
  let sql_upper := strUpper sql
  let sql_lower := strLower sql
  let task_lower := strLower task
  let forbidden := FORBIDDEN_TOKENS.filterMap (fun token =>
    if strContains (strUpper token) sql_upper then
      some ("wrong_dialect_token(" ++ removeParens token ++ ")")
    else none)
  let multi := if ((pyStrip sql).toList.dropLast).contains ';' then ["multi_statement"] else []
  let ddl := DDL_DML_KEYWORDS.filterMap (fun kw =>
    if reWordSearch kw sql_upper then some ("ddl_dml:" ++ kw) else none)
  let task_needs_lead := requires_lead_patterns.any (fun p => strContains p task_lower)
  let task_needs_partition := requires_partition_patterns.any (fun p => strContains p task_lower)
  let task_needs_clip := requires_window_clip_patterns.any (fun p => strContains p task_lower)
  let task_needs_seed := requires_seed_state_patterns.any (fun p => strContains p task_lower)
  let lead :=
    if task_needs_lead && !(strContains "LEAD(" sql_upper) && !(strContains "LAG(" sql_upper)
    then ["missing_LEAD"] else []
  let partition :=
    if task_needs_partition && !(strContains "PARTITION BY" sql_upper)
    then ["no_partition_by_site"] else []
  let clip :=
    if task_needs_clip then
      (if !(datetimeNowSearch sql_lower.toList) then ["no_window_bounds"] else [])
        ++ (if !(strContains "MAX(" sql_upper) || !(strContains "MIN(" sql_upper)
            then ["no_seed_or_clip"] else [])
    else []
  let seed :=
    if task_needs_seed && !(strContains "ROW_NUMBER" sql_upper)
        && !(strContains "PARTITION BY" sql_upper)
    then ["no_seed_state"] else []
  let tsub :=
    if tsSubSearch sql_lower.toList && !(strContains "julianday(" sql_lower)
    then ["direct_timestamp_subtraction"] else []
  let rowcount :=
    if task_needs_lead && strContains "COUNT(" sql_upper && !(strContains "julianday" sql_lower)
    then ["row_counts_instead_of_durations"] else []
  let caseSens :=
    if status_task_keywords.any (fun k => strContains k task_lower) then
      if statusEqSearch sql_lower.toList && !(strContains "UPPER(status)" sql)
          && !(strContains "LOWER(status)" sql)
      then ["case_sensitive_status_check"] else []
    else []
  forbidden ++ multi ++ ddl ++ lead ++ partition ++ clip ++ seed ++ tsub ++ rowcount ++ caseSens

/-- Parsed JSON object returned by a generation backend, with the dictionary
defaults of the source applied through `Option`. -/
structure LLMOutput where
  introspect_sql : Option String := none
  plan : Option String := none
  sql : Option String := none
  checks : List String := []
  warnings : List String := []
deriving Repr

/-- Outcome of `SQLQueryGenerator._execute_sql`: either the fetched rows or
the captured exception text.  The SQLite store is external, so executions are
modelled by an oracle `String → ExecResult`. -/
structure ExecResult where
  success : Bool
  exec_error : Option String
  result_columns : List String
  row_count : Nat
  rows : List (List String)
deriving Repr

/-- One generate/validate/execute round of the attempt history. -/
structure Attempt where
  llm_output : LLMOutput
  exec_result : ExecResult
  policy_failures : List String
deriving Repr

/-- Final dictionary returned by `SQLQueryGenerator.generate_query`;
`result_ok` is the `result` sub-dictionary, present exactly when the last
execution succeeded. -/
structure SessionResult where
  success : Bool
  sql : Option String
  plan : Option String
  checks : List String
  warnings : List String
  result_ok : Option (List String × List (List String) × Nat)
  error : Option String
  policy_failures : List String
  attempts : Nat
  repair_history : List Attempt
deriving Repr

/-- A finished attempt that ends the session successfully. -/
def attemptGood (a : Attempt) : Bool :=
  a.exec_result.success && a.policy_failures.isEmpty

/-- Embedding of the repair loop of `SQLQueryGenerator.generate_query`
(lines 595-632).  `fuel` is `max_repairs - repair_count`; `responses` is the
stream of parsed repair completions, `none` marking a repair response whose
JSON failed to parse (the loop breaks there); `cur` is the attempt the loop
condition inspects.  Returns the attempts appended by the loop, the attempt
whose fields are live after the loop, and the primary SQL strings executed
by the loop in order. -/
def repair_loop (execO : String → ExecResult) (task : String) :
    Nat → List (Option LLMOutput) → Attempt → (List Attempt × Attempt × List String)
  | 0, _, cur => ([], cur, [])
  | Nat.succ fuel, responses, cur =>
      if attemptGood cur then ([], cur, [])
      else
        match responses with
        | [] => ([], cur, [])
        | none :: _ => ([], cur, [])
        | some out :: rest =>
            let sql := out.sql.getD ""
            let failures := validate_policy sql task
            let er := execO sql
            let att : Attempt := ⟨out, er, failures⟩
            let r := repair_loop execO task fuel rest att
            (att :: r.1, r.2.1, sql :: r.2.2)

/-- Embedding of `SQLQueryGenerator.generate_query`
(`app/services/sql_query_generator.py`, lines 538-652).  `execO` is the
SQLite executor; `initial` is the parsed JSON of the initial completion
(`Except.error e` modelling a `json.JSONDecodeError` with text `e`);
`repairs` is the stream of parsed repair completions.  Returns the session
result together with the trace of every SQL string handed to the executor
(introspection query first, then each attempt's primary SQL). -/
def generate_query (execO : String → ExecResult)
    (initial : Except String LLMOutput)
    (repairs : List (Option LLMOutput))
    (task : String) (max_repairs : Nat) : SessionResult × List String :=
  match initial with
  | Except.error e =>
      ({ success := false, sql := none, plan := none, checks := [], warnings := [],
         result_ok := none, error := some ("Failed to parse LLM JSON response: " ++ e),
         policy_failures := [], attempts := 0, repair_history := [] }, [])
  | Except.ok llm_output =>
      let introTrace :=
        match llm_output.introspect_sql with
        | some isql => if isql = "" then [] else [isql]
        | none => []
      let sql := llm_output.sql.getD ""
      let failures := validate_policy sql task
      let er := execO sql
      let first : Attempt := ⟨llm_output, er, failures⟩
      let lp := repair_loop execO task max_repairs repairs first
      let attempts := first :: lp.1
      let fin := lp.2.1
      let final_success := attemptGood fin
      ({ success := final_success
         sql := some (fin.llm_output.sql.getD "")
         plan := fin.llm_output.plan
         checks := fin.llm_output.checks
         warnings := fin.llm_output.warnings
         result_ok :=
           if fin.exec_result.success then
             some (fin.exec_result.result_columns, fin.exec_result.rows,
               fin.exec_result.row_count)
           else none
         error := fin.exec_result.exec_error
         policy_failures := fin.policy_failures
         attempts := attempts.length
         repair_history := attempts },
       introTrace ++ sql :: lp.2.2)

/-- Executor oracle reporting a bare success, used to instantiate concrete
sessions in witnesses and counterexamples. -/
def okExec : ExecResult :=
  { success := true, exec_error := none, result_columns := [], row_count := 0, rows := [] }

/-- The session result of `generate_query` (first projection, without the
execution trace). -/
def sessionOf (execO : String → ExecResult) (initial : Except String LLMOutput)
    (repairs : List (Option LLMOutput)) (task : String) (max_repairs : Nat) : SessionResult :=
  (generate_query execO initial repairs task max_repairs).1

/-- Rank of the component-status strings recognized by the filter loop of
`poll_site`; a string the loop does not recognize never upgrades the
accumulator. -/
def tokRank (s : String) : Nat :=
  if s = "incident" then 3
  else if s = "degraded" then 2
  else if s = "maintenance" then 1
  else 0

/-- Rank of the statuses reachable by the filter loop of `poll_site`. -/
def schedRank : StatusType → Nat
  | StatusType.incident => 3
  | StatusType.degraded => 2
  | StatusType.maintenance => 1
  | _ => 0

/-- Statuses the filter loop of `poll_site` can hold. -/
def schedReachable (w : StatusType) : Prop :=
  w = StatusType.operational ∨ w = StatusType.maintenance
    ∨ w = StatusType.degraded ∨ w = StatusType.incident

/-! Theorems settling the claims. -/

/-- C5: the claim asserts that a text equal to a curated INCIDENT-bucket
pattern, such as "service disruption", normalizes to INCIDENT.  The code
disagrees: the OPERATIONAL bucket is matched first and its generic pattern
"up" occurs inside the word "disruption", so `normalize_status` returns
OPERATIONAL even though "service disruption" is an explicitly listed
INCIDENT pattern (which is therefore unreachable). -/
theorem C5_service_disruption_shadowed_by_up :
    normalize_status "service disruption" = StatusType.operational
    ∧ STATUS_PATTERNS.any
        (fun p => decide (p.1 = StatusType.incident) && p.2.contains "service disruption") = true := by
  constructor
  · rfl
  · rfl

/-- C2: the claim asserts that with both a `status.indicator` and a
non-empty `components` list, the returned status is the worse of the
indicator-derived status and the component aggregate.  On the payload with
indicator "major" (INCIDENT) and a single "maintenance" component the code
returns MAINTENANCE: the component aggregate replaces the status whenever it
is not OPERATIONAL, even when the indicator-derived status is strictly worse
than it, contradicting the adjacent source comment "Use worst status". -/
theorem C2_component_aggregate_overrides_worse_indicator :
    (json_parse (JValue.obj
        [("status", JValue.obj [("indicator", JValue.str "major")]),
         ("components", JValue.arr
           [JValue.obj [("status", JValue.str "maintenance"), ("name", JValue.str "API")]])])).status
      = StatusType.maintenance
    ∧ map_indicator_to_status "major" = StatusType.incident
    ∧ normalize_component_statuses
        [JValue.obj [("status", JValue.str "maintenance"), ("name", JValue.str "API")]]
      = StatusType.maintenance
    ∧ spec_worse StatusType.incident StatusType.maintenance = StatusType.incident := by
  refine ⟨?_, rfl, ?_, rfl⟩
  · rfl
  · rfl

/-- C9: an RSS feed with the single entry "Resolved - Database Issues"
published two hours before now (7200 seconds) yields status
RECENTLY_RESOLVED with summary "Resolved: Resolved - Database Issues". -/
theorem C9_rss_single_resolved_entry :
    (rss_parse 0 [{ title := "Resolved - Database Issues", summary := ""
                    published := some (-7200), link := "" }]).status
      = StatusType.recently_resolved
    ∧ (rss_parse 0 [{ title := "Resolved - Database Issues", summary := ""
                      published := some (-7200), link := "" }]).summary
      = "Resolved: Resolved - Database Issues" := by
  constructor
  · rfl
  · rfl

/-- C8: when the initial completion fails to parse as JSON, the session
aborts at once with a structured failure: success is false, the attempt
count is zero, the repair history is empty, and no SQL at all - neither an
introspection query nor a primary query - reaches the executor (the
execution trace is empty), for every executor, repair stream, task and
budget. -/
theorem C8_initial_parse_failure_aborts (execO : String → ExecResult)
    (repairs : List (Option LLMOutput)) (task : String) (max_repairs : Nat) (e : String) :
    generate_query execO (Except.error e) repairs task max_repairs
      = ({ success := false, sql := none, plan := none, checks := [], warnings := [],
           result_ok := none,
           error := some ("Failed to parse LLM JSON response: " ++ e),
           policy_failures := [], attempts := 0, repair_history := [] }, []) := rfl

/-- C1 counterexample: the claim asserts that a primary SQL is only run
against the store once its attempt has no outstanding policy violations.  In
a concrete session whose only attempt carries the violation
wrong_dialect_token(INTERVAL), that attempt's SQL nevertheless appears in
the execution trace: validation failures do not gate execution. -/
theorem C1_counterexample_executes_despite_violation :
    (generate_query (fun _ => okExec)
      (Except.ok { sql := some "SELECT INTERVAL 1" }) [] "" 0).2
      = ["SELECT INTERVAL 1"]
    ∧ ((generate_query (fun _ => okExec)
        (Except.ok { sql := some "SELECT INTERVAL 1" }) [] "" 0).1.repair_history.map
          (fun a => a.policy_failures))
      = [["wrong_dialect_token(INTERVAL)"]] := by
  constructor
  · rfl
  · rfl

theorem repair_loop_last (execO : String → ExecResult) (task : String) (fuel : Nat) :
    ∀ (rs : List (Option LLMOutput)) (cur : Attempt),
      (cur :: (repair_loop execO task fuel rs cur).1).getLast?
        = some (repair_loop execO task fuel rs cur).2.1 := by
  induction fuel with
  | zero => intro rs cur; simp [repair_loop]
  | succ fuel ih =>
      intro rs cur
      by_cases hg : attemptGood cur = true
      · simp [repair_loop, hg]
      · cases rs with
        | nil => simp [repair_loop, hg]
        | cons o rest =>
            cases o with
            | none => simp [repair_loop, hg]
            | some out =>
                simp only [repair_loop, hg, if_false, Bool.false_eq_true]
                rw [List.getLast?_cons_cons]
                exact ih rest _

theorem repair_loop_len (execO : String → ExecResult) (task : String) (fuel : Nat) :
    ∀ (rs : List (Option LLMOutput)) (cur : Attempt),
      (repair_loop execO task fuel rs cur).1.length ≤ fuel := by
  induction fuel with
  | zero => intro rs cur; simp [repair_loop]
  | succ fuel ih =>
      intro rs cur
      by_cases hg : attemptGood cur = true
      · simp [repair_loop, hg]
      · cases rs with
        | nil => simp [repair_loop, hg]
        | cons o rest =>
            cases o with
            | none => simp [repair_loop, hg]
            | some out =>
                simp only [repair_loop, hg, if_false, Bool.false_eq_true, List.length_cons]
                exact Nat.succ_le_succ (ih rest _)

theorem repair_loop_stop (execO : String → ExecResult) (task : String) (fuel : Nat)
    (rs : List (Option LLMOutput)) (att : Attempt) (h : attemptGood att = true) :
    repair_loop execO task fuel rs att = ([], att, []) := by
  cases fuel with
  | zero => rfl
  | succ fuel => simp [repair_loop, h]

theorem repair_loop_prefix_bad (execO : String → ExecResult) (task : String) (fuel : Nat) :
    ∀ (rs : List (Option LLMOutput)) (cur : Attempt),
      attemptGood cur = false →
        ∀ b ∈ (cur :: (repair_loop execO task fuel rs cur).1).dropLast,
          attemptGood b = false := by
  induction fuel with
  | zero => intro rs cur hcur b hb; simp [repair_loop] at hb
  | succ fuel ih =>
      intro rs cur hcur b hb
      rw [repair_loop.eq_def] at hb
      simp only [hcur, Bool.false_eq_true, if_false] at hb
      cases rs with
      | nil => simp at hb
      | cons o rest =>
          cases o with
          | none => simp at hb
          | some out =>
              simp only [] at hb
              have hb2 : b = cur
                  ∨ b ∈ ((⟨out, execO (out.sql.getD ""),
                        validate_policy (out.sql.getD "") task⟩ : Attempt)
                      :: (repair_loop execO task fuel rest
                          ⟨out, execO (out.sql.getD ""),
                            validate_policy (out.sql.getD "") task⟩).1).dropLast := by
                simpa using List.mem_cons.mp hb
              rcases hb2 with h | h
              · exact h ▸ hcur
              · by_cases hg : attemptGood (⟨out, execO (out.sql.getD ""),
                    validate_policy (out.sql.getD "") task⟩ : Attempt) = true
                · rw [repair_loop_stop execO task fuel rest _ hg] at h
                  simp at h
                · exact ih rest _ (by simpa using hg) b h

/-- C1 amended: execution is not gated on validation (each attempt's primary
SQL is executed regardless of its outstanding policy violations, see the
counterexample), but the attempt marked terminal-success does have an empty
violation list: whenever a session reports success, its final reported
policy-failure list is empty and the last attempt of the history has an
empty violation list and a successful execution. -/
theorem C1_terminal_success_has_no_violations
    (execO : String → ExecResult) (initial : Except String LLMOutput)
    (repairs : List (Option LLMOutput)) (task : String) (max_repairs : Nat)
    (h : (sessionOf execO initial repairs task max_repairs).success = true) :
    (sessionOf execO initial repairs task max_repairs).policy_failures = []
    ∧ ∃ a, (sessionOf execO initial repairs task max_repairs).repair_history.getLast?
          = some a
        ∧ a.policy_failures = [] ∧ a.exec_result.success = true := by
  cases initial with
  | error e => simp [sessionOf, generate_query] at h
  | ok out =>
      have hsucc : attemptGood (repair_loop execO task max_repairs repairs
          ⟨out, execO (out.sql.getD ""), validate_policy (out.sql.getD "") task⟩).2.1
            = true := h
      have hparts := (Bool.and_eq_true _ _).mp hsucc
      have hpf : (repair_loop execO task max_repairs repairs
          ⟨out, execO (out.sql.getD ""), validate_policy (out.sql.getD "") task⟩).2.1.policy_failures
            = [] := by
        have := hparts.2
        exact List.isEmpty_iff.mp this
      refine ⟨hpf, (repair_loop execO task max_repairs repairs
          ⟨out, execO (out.sql.getD ""), validate_policy (out.sql.getD "") task⟩).2.1,
        ?_, hpf, hparts.1⟩
      exact repair_loop_last execO task max_repairs repairs _

/-- C1 witness: a concrete successful session (a clean query, no repairs
needed) at which the amended theorem's hypothesis holds. -/
theorem C1_witness_successful_session :
    (sessionOf (fun _ => okExec) (Except.ok { sql := some "SELECT 1" }) [] "" 0).policy_failures
        = []
    ∧ ∃ a, (sessionOf (fun _ => okExec)
            (Except.ok { sql := some "SELECT 1" }) [] "" 0).repair_history.getLast?
          = some a
        ∧ a.policy_failures = [] ∧ a.exec_result.success = true :=
  C1_terminal_success_has_no_violations (fun _ => okExec)
    (Except.ok { sql := some "SELECT 1" }) [] "" 0 (by rfl)

/-- C3: for every executor, completion stream, task, contract and repair
budget, the session terminates (it is a total function) with an attempt
history of at most max_repairs + 1 attempts, the reported attempt count
being the history length; if it reports success, the last attempt of the
history is the first attempt with empty policy failures and successful
execution (every earlier attempt fails that test); if it reports failure,
either no attempt was made (initial parse failure) or the last attempt is
still failing when the loop stops. -/
theorem C3_session_termination_bound
    (execO : String → ExecResult) (initial : Except String LLMOutput)
    (repairs : List (Option LLMOutput)) (task : String) (max_repairs : Nat) :
    (sessionOf execO initial repairs task max_repairs).attempts
        = (sessionOf execO initial repairs task max_repairs).repair_history.length
    ∧ (sessionOf execO initial repairs task max_repairs).repair_history.length
        ≤ max_repairs + 1
    ∧ ((sessionOf execO initial repairs task max_repairs).success = true →
        ∃ a, (sessionOf execO initial repairs task max_repairs).repair_history.getLast?
              = some a
          ∧ attemptGood a = true
          ∧ ∀ b ∈ (sessionOf execO initial repairs task max_repairs).repair_history.dropLast,
              attemptGood b = false)
    ∧ ((sessionOf execO initial repairs task max_repairs).success = false →
        (sessionOf execO initial repairs task max_repairs).repair_history = []
        ∨ ∃ a, (sessionOf execO initial repairs task max_repairs).repair_history.getLast?
              = some a
            ∧ attemptGood a = false) := by
  cases initial with
  | error e =>
      refine ⟨rfl, by simp [sessionOf, generate_query], ?_, fun _ => Or.inl rfl⟩
      intro h
      simp [sessionOf, generate_query] at h
  | ok out =>
      refine ⟨rfl, ?_, ?_, ?_⟩
      · show ((⟨out, execO (out.sql.getD ""), validate_policy (out.sql.getD "") task⟩ : Attempt)
            :: (repair_loop execO task max_repairs repairs
              ⟨out, execO (out.sql.getD ""), validate_policy (out.sql.getD "") task⟩).1).length
          ≤ max_repairs + 1
        simp only [List.length_cons]
        exact Nat.succ_le_succ (repair_loop_len execO task max_repairs repairs _)
      · intro h
        have hfin : attemptGood (repair_loop execO task max_repairs repairs
            ⟨out, execO (out.sql.getD ""), validate_policy (out.sql.getD "") task⟩).2.1
              = true := h
        refine ⟨_, repair_loop_last execO task max_repairs repairs _, hfin, ?_⟩
        by_cases hg : attemptGood
            (⟨out, execO (out.sql.getD ""), validate_policy (out.sql.getD "") task⟩ : Attempt)
              = true
        · intro b hb
          rw [show (sessionOf execO (Except.ok out) repairs task max_repairs).repair_history
              = [⟨out, execO (out.sql.getD ""), validate_policy (out.sql.getD "") task⟩] from by
            show (_ :: (repair_loop execO task max_repairs repairs _).1) = _
            rw [repair_loop_stop execO task max_repairs repairs _ hg]] at hb
          simp at hb
        · exact repair_loop_prefix_bad execO task max_repairs repairs _
            (by simpa using hg)
      · intro h
        have hfin : attemptGood (repair_loop execO task max_repairs repairs
            ⟨out, execO (out.sql.getD ""), validate_policy (out.sql.getD "") task⟩).2.1
              = false := by simpa [sessionOf, generate_query, attemptGood] using h
        exact Or.inr ⟨_, repair_loop_last execO task max_repairs repairs _, hfin⟩

/-- C3 witness: the bound and the success conclusion at a concrete
one-attempt successful session. -/
theorem C3_witness_concrete_session :
    ∃ a, (sessionOf (fun _ => okExec)
          (Except.ok { sql := some "SELECT 2" }) [] "" 0).repair_history.getLast?
        = some a
      ∧ attemptGood a = true
      ∧ ∀ b ∈ (sessionOf (fun _ => okExec)
            (Except.ok { sql := some "SELECT 2" }) [] "" 0).repair_history.dropLast,
          attemptGood b = false :=
  (C3_session_termination_bound (fun _ => okExec)
    (Except.ok { sql := some "SELECT 2" }) [] "" 0).2.2.1 (by rfl)

/-- C4: for every parser roster, declared type, fetched content and URL,
when the selected parser's parse raises, `parse_url` does not propagate the
fault: it returns a Reading-shaped result with status UNKNOWN, source_type
"error", the error text in the summary (prefixed "Error: ") and in the
error field. -/
theorem C4_parse_error_degrades_to_unknown
    (parsers : List ParserSpec) (declared : Option ParserSpec)
    (content content_type url : String) (p : ParserSpec) (e : String)
    (hsel : selectParser parsers declared content_type content = some p)
    (hparse : p.parse content url = Except.error e) :
    parse_url parsers declared (Except.ok (content, content_type)) url = errorReading e
    ∧ (errorReading e).status = StatusType.unknown
    ∧ (errorReading e).source_type = "error"
    ∧ (errorReading e).summary = "Error: " ++ e
    ∧ (errorReading e).error = some e := by
  refine ⟨?_, rfl, rfl, rfl, rfl⟩
  simp only [parse_url]
  rw [hsel]
  simp only []
  rw [hparse]

/-- C4 witness: a concrete always-raising parser selected by declared type. -/
theorem C4_witness_concrete_failing_parse :
    parse_url []
        (some { canParse := fun _ _ => true, parse := fun _ _ => Except.error "boom",
                sourceType := "json" })
        (Except.ok ("", "")) "http://x" = errorReading "boom"
    ∧ (errorReading "boom").status = StatusType.unknown
    ∧ (errorReading "boom").source_type = "error"
    ∧ (errorReading "boom").summary = "Error: " ++ "boom"
    ∧ (errorReading "boom").error = some "boom" :=
  C4_parse_error_degrades_to_unknown []
    (some { canParse := fun _ _ => true, parse := fun _ _ => Except.error "boom",
            sourceType := "json" })
    "" "" "http://x"
    { canParse := fun _ _ => true, parse := fun _ _ => Except.error "boom",
      sourceType := "json" }
    "boom" rfl rfl

/-- C10: for every configuration, settings row, time, site and status pair,
`should_notify` is false when the new status equals the old one, and false
whenever the site has a `last_notified_at` timestamp whose cooldown window
(the configured `notification_cooldown_minutes`, defaulting to 60 when no
settings row exists) has not yet elapsed - so no transition can trigger two
notifications within one cooldown window. -/
theorem C10_no_notification_on_equal_or_cooldown
    (configured : Bool) (app_settings : Option AppSettings) (now : Int)
    (site : Site) (new_status old_status : StatusType) :
    (new_status = old_status →
        should_notify configured app_settings now site new_status old_status = false)
    ∧ (∀ t, site.last_notified_at = some t → now < t + cooldownOf app_settings →
        should_notify configured app_settings now site new_status old_status = false) := by
  constructor
  · intro h
    cases configured <;> simp [should_notify, h]
  · intro t ht hlt
    cases configured with
    | false => simp [should_notify]
    | true =>
        by_cases hno : new_status = old_status
        · simp [should_notify, hno]
        · simp [should_notify, hno, ht, hlt]

/-- C10 witness: equal statuses, and a site notified 30 minutes ago under
the default 60-minute cooldown. -/
theorem C10_witness_concrete :
    should_notify true none 0 { last_notified_at := none, last_notified_status := none }
        StatusType.operational StatusType.operational = false
    ∧ should_notify true none 0 { last_notified_at := some (-30), last_notified_status := none }
        StatusType.incident StatusType.operational = false :=
  ⟨(C10_no_notification_on_equal_or_cooldown true none 0
      { last_notified_at := none, last_notified_status := none }
      StatusType.operational StatusType.operational).1 rfl,
   (C10_no_notification_on_equal_or_cooldown true none 0
      { last_notified_at := some (-30), last_notified_status := none }
      StatusType.incident StatusType.operational).2 (-30) rfl (by norm_num [cooldownOf])⟩

theorem firstMatch_cases (text : String) :
    ∀ table : List (StatusType × List String),
      firstMatch text table = StatusType.unknown
      ∨ firstMatch text table ∈ table.map Prod.fst := by
  intro table
  induction table with
  | nil => exact Or.inl rfl
  | cons hd tl ih =>
      obtain ⟨st, pats⟩ := hd
      by_cases h : pats.any (fun p => strContains p text) = true
      · right; simp [firstMatch, h]
      · rcases ih with h2 | h2
        · left; simpa [firstMatch, h] using h2
        · right
          simp only [firstMatch, h, if_false, List.map_cons]
          exact List.mem_cons_of_mem _ h2

theorem normalize_status_ne_rr (t : String) :
    normalize_status t ≠ StatusType.recently_resolved := by
  unfold normalize_status
  by_cases h : t = ""
  · simp [h]
  · simp only [h, if_false]
    rcases firstMatch_cases (pyStrip (strLower t)) STATUS_PATTERNS with h2 | h2
    · rw [h2]; intro hc; cases hc
    · intro hc
      rw [hc] at h2
      simp [STATUS_PATTERNS] at h2

/-- C6: `normalize_component_statuses` returns the single worst status among
the element-wise normalized component statuses: the empty list yields
UNKNOWN; any component normalizing to INCIDENT forces INCIDENT; on a
non-empty list the result is one of the normalized statuses and
severity-dominates all of them; and the result is invariant under
permutation of the component list. -/
theorem C6_component_worst_wins (comps : List JValue) :
    (comps = [] → normalize_component_statuses comps = StatusType.unknown)
    ∧ (StatusType.incident
          ∈ comps.map (fun c => normalize_status (jgetStrD c "status" "")) →
        normalize_component_statuses comps = StatusType.incident)
    ∧ (comps ≠ [] →
        normalize_component_statuses comps
            ∈ comps.map (fun c => normalize_status (jgetStrD c "status" ""))
        ∧ ∀ s ∈ comps.map (fun c => normalize_status (jgetStrD c "status" "")),
            severityRank s ≤ severityRank (normalize_component_statuses comps))
    ∧ (∀ comps2 : List JValue, comps.Perm comps2 →
        normalize_component_statuses comps = normalize_component_statuses comps2) := by
  refine ⟨?_, ?_, ?_, ?_⟩
  · intro h; subst h; rfl
  · intro hmem
    cases comps with
    | nil => simp at hmem
    | cons c cs =>
        have hne : ¬((c :: cs).isEmpty = true) := by simp
        simp only [normalize_component_statuses, if_neg hne]
        rw [if_pos hmem]
  · intro hne
    cases comps with
    | nil => exact absurd rfl hne
    | cons c cs =>
        have hne0 : ¬((c :: cs).isEmpty = true) := by simp
        simp only [normalize_component_statuses, if_neg hne0]
        by_cases h1 : StatusType.incident
            ∈ (c :: cs).map (fun x => normalize_status (jgetStrD x "status" ""))
        · rw [if_pos h1]
          exact ⟨h1, fun s _ => by cases s <;> simp [severityRank]⟩
        · rw [if_neg h1]
          by_cases h2 : StatusType.degraded
              ∈ (c :: cs).map (fun x => normalize_status (jgetStrD x "status" ""))
          · rw [if_pos h2]
            refine ⟨h2, fun s hs => ?_⟩
            cases s <;> simp [severityRank]
            exact absurd hs h1
          · rw [if_neg h2]
            by_cases h3 : StatusType.maintenance
                ∈ (c :: cs).map (fun x => normalize_status (jgetStrD x "status" ""))
            · rw [if_pos h3]
              refine ⟨h3, fun s hs => ?_⟩
              cases s <;> simp [severityRank]
              · exact absurd hs h2
              · exact absurd hs h1
            · rw [if_neg h3]
              by_cases h4 : StatusType.operational
                  ∈ (c :: cs).map (fun x => normalize_status (jgetStrD x "status" ""))
              · rw [if_pos h4]
                refine ⟨h4, fun s hs => ?_⟩
                cases s <;> simp [severityRank]
                · exact absurd hs h2
                · exact absurd hs h1
                · exact absurd hs h3
                · obtain ⟨x, _, hx⟩ := List.mem_map.mp hs
                  exact absurd hx (normalize_status_ne_rr _)
              · rw [if_neg h4]
                have hhead : normalize_status (jgetStrD c "status" "") = StatusType.unknown := by
                  have hmem0 : normalize_status (jgetStrD c "status" "")
                      ∈ (c :: cs).map (fun x => normalize_status (jgetStrD x "status" "")) := by
                    simp
                  cases hcase : normalize_status (jgetStrD c "status" "") with
                  | operational => exact absurd (hcase ▸ hmem0) h4
                  | degraded => exact absurd (hcase ▸ hmem0) h2
                  | incident => exact absurd (hcase ▸ hmem0) h1
                  | maintenance => exact absurd (hcase ▸ hmem0) h3
                  | recently_resolved => exact absurd hcase (normalize_status_ne_rr _)
                  | unknown => rfl
                refine ⟨?_, fun s hs => ?_⟩
                · rw [← hhead]; simp
                · cases s <;> simp [severityRank]
                  · exact absurd hs h2
                  · exact absurd hs h1
                  · exact absurd hs h3
                  · obtain ⟨x, _, hx⟩ := List.mem_map.mp hs
                    exact absurd hx (normalize_status_ne_rr _)
  · intro comps2 hp
    have hm : ∀ x : StatusType,
        (x ∈ comps.map (fun c => normalize_status (jgetStrD c "status" ""))) ↔
          (x ∈ comps2.map (fun c => normalize_status (jgetStrD c "status" ""))) :=
      fun x => (hp.map _).mem_iff
    cases comps with
    | nil =>
        have h0 : comps2 = [] := hp.nil_eq.symm
        subst h0; rfl
    | cons c cs =>
        cases comps2 with
        | nil => exact absurd hp.eq_nil (by simp)
        | cons d ds =>
            have hne1 : ¬((c :: cs).isEmpty = true) := by simp
            have hne2 : ¬((d :: ds).isEmpty = true) := by simp
            simp only [normalize_component_statuses, if_neg hne1, if_neg hne2, hm]

/-- C6 witness: a two-component list with one INCIDENT component aggregates
to INCIDENT. -/
theorem C6_witness_incident_wins :
    normalize_component_statuses
        [JValue.obj [("status", JValue.str "operational")],
         JValue.obj [("status", JValue.str "major outage")]] = StatusType.incident :=
  (C6_component_worst_wins
      [JValue.obj [("status", JValue.str "operational")],
       JValue.obj [("status", JValue.str "major outage")]]).2.1 (by decide)

theorem worstStep_rank (w : StatusType) (hw : schedReachable w) (s : String) :
    schedReachable (worstStep w s)
    ∧ schedRank (worstStep w s) = max (schedRank w) (tokRank s) := by
  by_cases h1 : s = "incident"
  · subst h1
    rcases hw with h | h | h | h <;> subst h <;>
      simp [worstStep, tokRank, schedRank, schedReachable]
  · by_cases h2 : s = "degraded"
    · subst h2
      rcases hw with h | h | h | h <;> subst h <;>
        simp [worstStep, tokRank, schedRank, schedReachable]
    · by_cases h3 : s = "maintenance"
      · subst h3
        rcases hw with h | h | h | h <;> subst h <;>
          simp [worstStep, tokRank, schedRank, schedReachable]
      · rcases hw with h | h | h | h <;> subst h <;>
          simp [worstStep, tokRank, schedRank, schedReachable, h1, h2, h3]

theorem foldl_worstStep_rank (l : List SchedComponent) :
    ∀ w, schedReachable w →
      schedReachable (l.foldl (fun a c => worstStep a c.status) w)
      ∧ schedRank (l.foldl (fun a c => worstStep a c.status) w)
          = (l.map (fun c => tokRank c.status)).foldl max (schedRank w) := by
  induction l with
  | nil => intro w hw; exact ⟨hw, rfl⟩
  | cons c cs ih =>
      intro w hw
      have h1 := worstStep_rank w hw c.status
      have h2 := ih (worstStep w c.status) h1.1
      refine ⟨by simpa using h2.1, ?_⟩
      simp only [List.foldl_cons, List.map_cons]
      rw [h2.2, h1.2]

theorem worstStep_incident_absorb (s : String) :
    worstStep StatusType.incident s = StatusType.incident := by
  unfold worstStep
  by_cases h1 : s = "incident" <;> by_cases h2 : s = "degraded" <;>
    by_cases h3 : s = "maintenance" <;> simp_all

theorem foldl_worstStep_incident (l : List SchedComponent) :
    l.foldl (fun a c => worstStep a c.status) StatusType.incident
      = StatusType.incident := by
  induction l with
  | nil => rfl
  | cons c cs ih => simpa [worstStep_incident_absorb] using ih

theorem foldl_worstStep_hits (l : List SchedComponent) :
    ∀ w, (∃ c ∈ l, c.status = "incident") →
      l.foldl (fun a c => worstStep a c.status) w = StatusType.incident := by
  induction l with
  | nil => intro w h; obtain ⟨c, hc, _⟩ := h; simp at hc
  | cons c cs ih =>
      intro w h
      by_cases hc : c.status = "incident"
      · have : worstStep w c.status = StatusType.incident := by simp [worstStep, hc]
        simp only [List.foldl_cons, this]
        exact foldl_worstStep_incident cs
      · obtain ⟨c2, hc2, hs2⟩ := h
        rcases List.mem_cons.mp hc2 with h0 | h0
        · exact absurd (h0 ▸ hs2) hc
        · simp only [List.foldl_cons]
          exact ih _ ⟨c2, h0, hs2⟩

/-- C7: module-filtered aggregation of `poll_site`.  With a non-empty
allow-list and extracted components, the stored status is the worst status
among the components whose names case-insensitively match the allow-list:
concretely, a 3-component extraction with one allow-listed INCIDENT
component among two OPERATIONAL ones yields INCIDENT; generally the rank of
the result equals the maximal rank of the matched components, and any
matched "incident" component forces INCIDENT; and when the allow-list
matches zero extracted components the raw parser status is kept unchanged. -/
theorem C7_module_filtered_worst (modules : List String) (comps : List SchedComponent)
    (raw : StatusType) :
    (module_filtered_status ["Db"]
        [{ name := "API", status := "operational" },
         { name := "DB", status := "incident" },
         { name := "Web", status := "operational" }] raw
      = StatusType.incident)
    ∧ (modules ≠ [] → comps ≠ [] →
        comps.filter (fun c => (modules.map strLower).contains (strLower c.name)) = [] →
        module_filtered_status modules comps raw = raw)
    ∧ (modules ≠ [] → comps ≠ [] →
        comps.filter (fun c => (modules.map strLower).contains (strLower c.name)) ≠ [] →
        schedRank (module_filtered_status modules comps raw)
            = ((comps.filter (fun c =>
                  (modules.map strLower).contains (strLower c.name))).map
                (fun c => tokRank c.status)).foldl max 0
          ∧ ∀ c ∈ comps.filter (fun c => (modules.map strLower).contains (strLower c.name)),
              c.status = "incident" →
              module_filtered_status modules comps raw = StatusType.incident) := by
  refine ⟨by rfl, ?_, ?_⟩
  · intro hm hc hf
    cases modules with
    | nil => exact absurd rfl hm
    | cons m ms =>
        cases comps with
        | nil => exact absurd rfl hc
        | cons c cs =>
            simp only [module_filtered_status]
            rw [if_neg (by simp)]
            rw [hf]
            simp
  · intro hm hc hf
    cases modules with
    | nil => exact absurd rfl hm
    | cons m ms =>
        cases comps with
        | nil => exact absurd rfl hc
        | cons c cs =>
            simp only [module_filtered_status]
            rw [if_neg (by simp)]
            rw [if_neg (by simpa using hf)]
            have hr := foldl_worstStep_rank
              ((c :: cs).filter (fun x => ((m :: ms).map strLower).contains (strLower x.name)))
              StatusType.operational (Or.inl rfl)
            refine ⟨by simpa [schedRank] using hr.2, ?_⟩
            intro x hx hxs
            exact foldl_worstStep_hits _ _ ⟨x, hx, hxs⟩

/-- C7 witness: an allow-list matching none of the extracted components
keeps the raw status. -/
theorem C7_witness_no_match_keeps_raw :
    module_filtered_status ["x"] [{ name := "A", status := "degraded" }] StatusType.degraded
      = StatusType.degraded :=
  (C7_module_filtered_worst ["x"] [{ name := "A", status := "degraded" }]
      StatusType.degraded).2.1 (by simp) (by simp) (by decide)

end AppHealth
